import Mathlib

/-!
Verification development for the GNOME2 movement engine.

The definitions below are a shallow embedding of the mover / time-series /
grid code paths of the repository:

* the base mover `Mover_c::GetMove` (from `Mover_c.cpp`),
* the Cython wind-mover wrapper `CyWindMover` (from `cy_wind_mover.pyx`),
* the Shio tidal time-value wrapper `CyShioTime` (from `cy_shio_time.pyx`),
* the CATS pattern-current mover state (from `CATSMover_c.h`).

C++ doubles are modelled with `ℚ`, `Seconds` with `ℤ`, and C strings /
station-type character codes with `Char`/`String`.  Bodies of C++ member
functions that are not part of the source tree (the wind and CATS mover
displacement/scale computations) are modelled from the specification and
carry a doc comment saying so.
-/

/-- A 2D velocity vector (u, v), `VelocityRec` of `type_defs`.  Units are
meters per second for field samples; the same record shape is reused by the
displacement computation (meters over the step). -/
structure VelocityRec where
  u : ℚ
  v : ℚ
deriving DecidableEq, Repr

/-- Geographic coordinate, `WorldPoint` of `type_defs` (pLong, pLat). -/
structure WorldPoint where
  pLong : ℚ
  pLat : ℚ
deriving DecidableEq, Repr

/-- `WorldPoint3D`: a `WorldPoint` plus a depth/z component. -/
structure WorldPoint3D where
  p : WorldPoint
  z : ℚ
deriving DecidableEq, Repr

/-- The particle record fields used by `Mover_c::GetMove`: a position
`p` and a depth `z`. -/
structure LERec where
  p : WorldPoint
  z : ℚ
deriving DecidableEq, Repr

/-- Typed failure taxonomy of the engine (spec section 7). -/
inductive MoverErr where
  | invalidArguments
  | dataUnavailable
  | referencePointUnresolvable
deriving DecidableEq, Repr

namespace Mover_c

/-- `Mover_c::GetMove` from `Mover_c.cpp`: the base mover copies the
particle's own pLat, pLong and z into the returned `WorldPoint3D` and has no
error path. -/
def GetMove (start_time stop_time model_time timeStep : ℤ)
    (setIndex leIndex : ℤ) (theLE : LERec) (leType : ℤ) : WorldPoint3D :=
  { p := { pLat := theLE.p.pLat, pLong := theLE.p.pLong }, z := theLE.z }

end Mover_c

/-- The `WindMover_c` state touched by the Cython wrapper
`cy_wind_mover.pyx`: the constant-wind flag and value, the four uncertainty
tunables, and the optionally attached OSSM time-series provider (`timeDep`,
set by `SetTimeDep`; modelled as a function from model seconds to a wind
`VelocityRec`). -/
structure WindMover_c where
  fIsConstantWind : Bool
  fConstantValue : VelocityRec
  fDuration : ℚ
  fUncertainStartTime : ℚ
  fSpeedScale : ℚ
  fAngleScale : ℚ
  timeDep : Option (ℤ → VelocityRec)

namespace CyWindMover

/-- `CyWindMover.__init__`: constant wind mode with zero velocity, and the
four uncertainty tunables stored as given. -/
def init (uncertain_duration uncertain_time_delay
    uncertain_speed_scale uncertain_angle_scale : ℚ) : WindMover_c :=
  { fIsConstantWind := true
    fConstantValue := { u := 0, v := 0 }
    fDuration := uncertain_duration
    fUncertainStartTime := uncertain_time_delay
    fSpeedScale := uncertain_speed_scale
    fAngleScale := uncertain_angle_scale
    timeDep := none }

/-- Getter of the `uncertain_duration` property. -/
def uncertain_duration (s : WindMover_c) : ℚ := s.fDuration

/-- Setter of the `uncertain_duration` property: stores the value with no
validation. -/
def set_uncertain_duration (s : WindMover_c) (value : ℚ) : WindMover_c :=
  { s with fDuration := value }

/-- Getter of the `uncertain_time_delay` property. -/
def uncertain_time_delay (s : WindMover_c) : ℚ := s.fUncertainStartTime

/-- Setter of the `uncertain_time_delay` property: stores the value with no
validation. -/
def set_uncertain_time_delay (s : WindMover_c) (value : ℚ) : WindMover_c :=
  { s with fUncertainStartTime := value }

/-- Getter of the `uncertain_speed_scale` property. -/
def uncertain_speed_scale (s : WindMover_c) : ℚ := s.fSpeedScale

/-- Setter of the `uncertain_speed_scale` property: stores the value with no
validation. -/
def set_uncertain_speed_scale (s : WindMover_c) (value : ℚ) : WindMover_c :=
  { s with fSpeedScale := value }

/-- Getter of the `uncertain_angle_scale` property. -/
def uncertain_angle_scale (s : WindMover_c) : ℚ := s.fAngleScale

/-- Setter of the `uncertain_angle_scale` property: stores the value with no
validation. -/
def set_uncertain_angle_scale (s : WindMover_c) (value : ℚ) : WindMover_c :=
  { s with fAngleScale := value }

/-- `CyWindMover.set_constant_wind`: stores (u, v) in `fConstantValue` and
sets `fIsConstantWind = 1`. -/
def set_constant_wind (s : WindMover_c) (windU windV : ℚ) : WindMover_c :=
  { s with fConstantValue := { u := windU, v := windV }, fIsConstantWind := true }

/-- `CyWindMover.set_ossm`: attaches the OSSM time-series provider via
`SetTimeDep` and sets `fIsConstantWind = 0`. -/
def set_ossm (s : WindMover_c) (ossm : ℤ → VelocityRec) : WindMover_c :=
  { s with timeDep := some ossm, fIsConstantWind := false }

end CyWindMover

namespace WindMover_c

/-- Modelled from the spec: `WindMover_c::GetTimeValue`, whose C++ body is
not under src (only its Cython caller is).  Spec section 4.5: the
deterministic wind component is the fixed (u, v) pair in constant mode, and
a sample of the attached Time Series Provider at the model time otherwise;
with no provider attached the backing data is absent (spec section 4.4). -/
def getTimeValue (s : WindMover_c) (modelTime : ℤ) : Except MoverErr VelocityRec :=
  if s.fIsConstantWind then Except.ok s.fConstantValue
  else
    match s.timeDep with
    | some p => Except.ok (p modelTime)
    | none => Except.error MoverErr.invalidArguments

/-- Modelled from the spec: `WindMover_c::GetMove` per particle, whose C++
body is not under src (only its Cython caller is).  Spec sections 4.3 to
4.5: displacement = (deterministic wind vector + uncertainty offset for the
particle's set) times the step length, uniform in the particle position;
with uncertainty disabled the offset is identically zero.  Spec section
4.4: the call fails with `InvalidArguments` when the particle's set index
exceeds the `numSets` configured for the step or when the required backing
time series is absent.  `offsetOf` stands for the per-set random offsets
drawn by the uncertainty model. -/
def GetMove (s : WindMover_c) (uncertain : Bool) (numSets : ℕ)
    (offsetOf : ℕ → VelocityRec) (modelTime stepLen : ℤ) (setIndex : ℕ) :
    Except MoverErr VelocityRec :=
  if uncertain = true ∧ numSets ≤ setIndex then Except.error MoverErr.invalidArguments
  else
    match s.getTimeValue modelTime with
    | Except.error e => Except.error e
    | Except.ok det =>
        let off : VelocityRec := if uncertain then offsetOf setIndex else { u := 0, v := 0 }
        Except.ok { u := (det.u + off.u) * stepLen, v := (det.v + off.v) * stepLen }

end WindMover_c

/-- A mutation of the wind mover reachable through the Cython wrapper
`cy_wind_mover.pyx`: switching to constant wind, attaching a provider, or
setting one of the four uncertainty tunables. -/
inductive WindOp where
  | setConstantWind (u v : ℚ)
  | setOssm (p : ℤ → VelocityRec)
  | setUncertainDuration (value : ℚ)
  | setUncertainTimeDelay (value : ℚ)
  | setUncertainSpeedScale (value : ℚ)
  | setUncertainAngleScale (value : ℚ)

namespace WindOp

/-- Whether the operation is `set_constant_wind` (the only wrapper call that
re-enables constant mode). -/
def isSetConstantWind : WindOp → Bool
  | WindOp.setConstantWind _ _ => true
  | _ => false

end WindOp

/-- Apply one wrapper mutation to the wind-mover state. -/
def applyWindOp (s : WindMover_c) : WindOp → WindMover_c
  | WindOp.setConstantWind u v => CyWindMover.set_constant_wind s u v
  | WindOp.setOssm p => CyWindMover.set_ossm s p
  | WindOp.setUncertainDuration v => CyWindMover.set_uncertain_duration s v
  | WindOp.setUncertainTimeDelay v => CyWindMover.set_uncertain_time_delay s v
  | WindOp.setUncertainSpeedScale v => CyWindMover.set_uncertain_speed_scale s v
  | WindOp.setUncertainAngleScale v => CyWindMover.set_uncertain_angle_scale s v

/-- Apply a sequence of wrapper mutations, left to right. -/
def applyWindOps (s : WindMover_c) (ops : List WindOp) : WindMover_c :=
  ops.foldl applyWindOp s

/-- One ebb/flood record (`basic_types.ebb_flood_data`): time, speed in
knots, and an event-type code. -/
structure EbbFloodData where
  time : ℤ
  speedInKnots : ℚ
  typeCode : ℤ
deriving DecidableEq, Repr

/-- One high/low record (`basic_types.high_low_data`): time, height, and an
event-type code. -/
structure HighLowData where
  time : ℤ
  height : ℚ
  typeCode : ℤ
deriving DecidableEq, Repr

/-- The `ShioTimeValue_c` state visible through the Cython wrapper
`cy_shio_time.pyx`.  `timeValueAt` stands for the C++ `GetTimeValue`
computation (its body is not under src); a call both returns the tide value
(or a nonzero OSErr) and fills the derived ebb/flood and high/low handles,
which we model as the list fields. -/
structure ShioTimeValue_c where
  fStationName : String
  fStationType : Char
  fScaleFactor : ℚ
  daylight_savings_off : Bool
  fEbbFloodDataHdl : List EbbFloodData
  fHighLowDataHdl : List HighLowData
  timeValueAt : ℤ → Except ℤ VelocityRec

/-- Result of a derived-table query of `CyShioTime`: either a copied-out
table of records, or the Python integer `0` that both `get_ebb_flood` and
`get_high_low` return when the station type does not match. -/
inductive ShioDerived (α : Type) where
  | table (xs : List α)
  | intZero
deriving DecidableEq, Repr

namespace CyShioTime

/-- `CyShioTime.get_time_value` for a single model time: raises a
`ValueError` when the underlying `GetTimeValue` returns a nonzero OSErr,
and returns the velocity record otherwise. -/
def get_time_value (s : ShioTimeValue_c) (modelTime : ℤ) : Except String VelocityRec :=
  match s.timeValueAt modelTime with
  | Except.ok v => Except.ok v
  | Except.error e =>
      Except.error ("Error invoking ShioTimeValue_c.GetTimeValue method in CyShioTime: C++ OSERR = " ++ toString e)

/-- `CyShioTime.get_ebb_flood`: first calls `get_time_value` (whose error
propagates), then copies out the ebb/flood handle when the station type is
the current-station code, and returns the Python integer `0` otherwise. -/
def get_ebb_flood (s : ShioTimeValue_c) (modelTime : ℤ) :
    Except String (ShioDerived EbbFloodData) :=
  match get_time_value s modelTime with
  | Except.error e => Except.error e
  | Except.ok _ =>
      if s.fStationType = 'C' then Except.ok (ShioDerived.table s.fEbbFloodDataHdl)
      else Except.ok ShioDerived.intZero

/-- `CyShioTime.get_high_low`: first calls `get_time_value` (whose error
propagates), then copies out the high/low handle when the station type is
the height-station code, and returns the Python integer `0` otherwise. -/
def get_high_low (s : ShioTimeValue_c) (modelTime : ℤ) :
    Except String (ShioDerived HighLowData) :=
  match get_time_value s modelTime with
  | Except.error e => Except.error e
  | Except.ok _ =>
      if s.fStationType = 'H' then Except.ok (ShioDerived.table s.fHighLowDataHdl)
      else Except.ok ShioDerived.intZero

/-- `CyShioTime.station_type` property getter: exposes the stored station
type character unchanged.  The source documents the possible values as
the characters C, H and P. -/
def station_type (s : ShioTimeValue_c) : Char := s.fStationType

end CyShioTime

/-- The environment `CyShioTime.__init__` consults: whether the station
file exists (`os.path.exists`) and the OSErr returned by the C++
`ShioTimeValue_c.ReadTimeValues` on that file (its body is not under src,
so the error code is an input of the model). -/
structure ShioInitEnv where
  pathExists : Bool
  readTimeValuesErr : ℤ
deriving DecidableEq, Repr

/-- The Python exception class raised by `CyShioTime.__init__`. -/
inductive ShioInitErr where
  | ioError
  | valueError
deriving DecidableEq, Repr

/-- The configuration stored by a successful `CyShioTime.__init__`. -/
structure ShioConfig where
  daylight_savings_off : Bool
  userUnits : ℤ
  fScaleFactor : ℚ
deriving DecidableEq, Repr

namespace CyShioTime

/-- `CyShioTime.__init__`: raises `IOError` when the path does not exist,
raises `ValueError` when `ReadTimeValues` returns a nonzero error, and
otherwise stores the configuration with user units set to -1. -/
def initFromPath (env : ShioInitEnv) (daylight_savings_off : Bool)
    (scale_factor : ℚ) : Except ShioInitErr ShioConfig :=
  if env.pathExists then
    if env.readTimeValuesErr ≠ 0 then Except.error ShioInitErr.valueError
    else
      Except.ok { daylight_savings_off := daylight_savings_off
                  userUnits := -1
                  fScaleFactor := scale_factor }
  else Except.error ShioInitErr.ioError

end CyShioTime

/-- The scale policy of the CATS mover (`CATSMover_c.h`: "none, constant,
or file"). -/
inductive ScaleTypeT where
  | sNone
  | sConstant
  | sTimeFile
deriving DecidableEq, Repr

/-- A world rectangle, used for grid bounds. -/
structure WorldRect where
  loLong : ℚ
  hiLong : ℚ
  loLat : ℚ
  hiLat : ℚ
deriving DecidableEq, Repr

/-- Whether a point lies inside the rectangle. -/
def WorldRect.containsB (r : WorldRect) (p : WorldPoint) : Bool :=
  decide (r.loLong ≤ p.pLong) && decide (p.pLong ≤ r.hiLong) &&
    decide (r.loLat ≤ p.pLat) && decide (p.pLat ≤ r.hiLat)

/-- Modelled from the spec: the Velocity Grid (`GridVel_c`, not under src).
Spec section 4.2: bounds lookup plus a spatial sample; `velAt` is the
interpolated vector inside the covered area and `speedAt` its magnitude
(kept as an abstract rational-valued field, since the magnitude of a
rational vector need not be rational). -/
structure TGridVel where
  bounds : WorldRect
  velAt : WorldPoint → VelocityRec
  speedAt : WorldPoint → ℚ

/-- Modelled from the spec: `sampleAt` returns the interpolated vector
inside the grid's covered area and the zero vector outside it (spec
section 4.2). -/
def TGridVel.sampleAt (g : TGridVel) (p : WorldPoint) : VelocityRec :=
  if g.bounds.containsB p then g.velAt p else { u := 0, v := 0 }

/-- The `CATSMover_c` state from `CATSMover_c.h` that the scale computation
touches: reference point and depth, the grid, the scale policy, the static
`refScale` multiplier, the attached time-series provider (`timeDep`,
modelled as the observed scalar reference value over model seconds), and
the eddy-uncertainty tunables. -/
structure CATSMover_c where
  refP : WorldPoint
  fGrid : Option TGridVel
  refZ : ℤ
  scaleType : ScaleTypeT
  scaleValue : ℚ
  refScale : ℚ
  bApplyLogProfile : Bool
  timeDep : Option (ℤ → ℚ)
  fEddyDiffusion : ℚ
  fEddyV0 : ℚ

namespace CATSMover_c

/-- Modelled from the spec: `CATSMover_c::ComputeVelocityScale`, whose body
is not under src (only its declaration is).  Spec section 4.6: with scaling
inactive only the static `refScale` applies; with an active policy the
scale is the target value (the stored constant, or the provider sample at
the model time) divided by the grid's own value at the reference point,
with `refScale` applied on top.  Spec sections 4.4 and 7: absent backing
data fails with `InvalidArguments`; a reference point at which the grid has
no value (outside its bounds) fails with `ReferencePointUnresolvable` while
a scale is configured. -/
def computeVelocityScale (m : CATSMover_c) (modelTime : ℤ) : Except MoverErr ℚ :=
  match m.scaleType with
  | ScaleTypeT.sNone => Except.ok m.refScale
  | ScaleTypeT.sConstant =>
      match m.fGrid with
      | none => Except.error MoverErr.invalidArguments
      | some g =>
          if g.bounds.containsB m.refP then
            Except.ok (m.scaleValue / g.speedAt m.refP * m.refScale)
          else Except.error MoverErr.referencePointUnresolvable
  | ScaleTypeT.sTimeFile =>
      match m.fGrid, m.timeDep with
      | none, _ => Except.error MoverErr.invalidArguments
      | some _, none => Except.error MoverErr.invalidArguments
      | some g, some f =>
          if g.bounds.containsB m.refP then
            Except.ok (f modelTime / g.speedAt m.refP * m.refScale)
          else Except.error MoverErr.referencePointUnresolvable

/-- Modelled from the spec: `CATSMover_c::GetMove` per particle, whose C++
body is not under src (only its declaration in `CATSMover_c.h` is).  Spec
section 4.6: the deterministic velocity is the grid sample at the
particle's position times the scale computed for the step, combined with
the per-set uncertainty offset and the step length; spec section 4.4: the
call fails with `InvalidArguments` when the particle's set index exceeds
the `numSets` configured for the step or when required backing data is
absent — the grid itself, or the time series a time-series scale policy
needs (the scale computation's own failures propagate). -/
def GetMove (m : CATSMover_c) (uncertain : Bool) (numSets : ℕ)
    (offsetOf : ℕ → VelocityRec) (modelTime stepLen : ℤ) (setIndex : ℕ)
    (pos : WorldPoint3D) : Except MoverErr VelocityRec :=
  if uncertain = true ∧ numSets ≤ setIndex then Except.error MoverErr.invalidArguments
  else
    match m.fGrid with
    | none => Except.error MoverErr.invalidArguments
    | some g =>
        match m.computeVelocityScale modelTime with
        | Except.error e => Except.error e
        | Except.ok scale =>
            let det := g.sampleAt pos.p
            let off : VelocityRec :=
              if uncertain then offsetOf setIndex else { u := 0, v := 0 }
            Except.ok { u := (det.u * scale + off.u) * stepLen,
                        v := (det.v * scale + off.v) * stepLen }

end CATSMover_c

/-- A concrete wind-mover state with constant mode off and no attached
provider: its backing time series is absent. -/
def c4WindNoSeries : WindMover_c :=
  { fIsConstantWind := false
    fConstantValue := { u := 0, v := 0 }
    fDuration := 10800
    fUncertainStartTime := 0
    fSpeedScale := 2
    fAngleScale := 2/5
    timeDep := none }

/-- A concrete CATS mover state with no grid attached: its backing grid is
absent. -/
def c4CatsNoGrid : CATSMover_c :=
  { refP := { pLong := 0, pLat := 0 }
    fGrid := none
    refZ := 0
    scaleType := ScaleTypeT.sNone
    scaleValue := 0
    refScale := 1
    bApplyLogProfile := false
    timeDep := none
    fEddyDiffusion := 0
    fEddyV0 := 0 }

/-- A concrete height-station ('H') Shio state with nonempty derived
tables and a succeeding `GetTimeValue`, used to evaluate the derived-table
queries of `CyShioTime`. -/
def c2StationH : ShioTimeValue_c :=
  { fStationName := "StationH"
    fStationType := 'H'
    fScaleFactor := 1
    daylight_savings_off := true
    fEbbFloodDataHdl := [{ time := 0, speedInKnots := 1, typeCode := 1 }]
    fHighLowDataHdl := [{ time := 0, height := 2, typeCode := 1 }]
    timeValueAt := fun _ => Except.ok { u := 0, v := 0 } }

/-- A concrete Shio state whose station type is the third documented code
'P', used to evaluate the `station_type` getter. -/
def c6StationP : ShioTimeValue_c :=
  { fStationName := "StationP"
    fStationType := 'P'
    fScaleFactor := 1
    daylight_savings_off := true
    fEbbFloodDataHdl := []
    fHighLowDataHdl := []
    timeValueAt := fun _ => Except.ok { u := 0, v := 0 } }

/-- Invariant used for the provider-override property: as long as no
`set_constant_wind` call occurs, applying wrapper mutations preserves
`fIsConstantWind = 0` and keeps some provider attached. -/
theorem applyWindOps_preserves_provider_mode (ops : List WindOp)
    (h : ∀ op ∈ ops, op.isSetConstantWind = false) (s : WindMover_c)
    (hflag : s.fIsConstantWind = false) (hdep : ∃ q, s.timeDep = some q) :
    (applyWindOps s ops).fIsConstantWind = false ∧
      ∃ q, (applyWindOps s ops).timeDep = some q := by
  induction ops generalizing s with
  | nil => exact ⟨hflag, hdep⟩
  | cons op rest ih =>
    have hop : op.isSetConstantWind = false := h op (List.mem_cons_self _ _)
    have hrest : ∀ o ∈ rest, o.isSetConstantWind = false :=
      fun o ho => h o (List.mem_cons_of_mem _ ho)
    have hstep : applyWindOps s (op :: rest) = applyWindOps (applyWindOp s op) rest := rfl
    rw [hstep]
    cases op with
    | setConstantWind u v => simp [WindOp.isSetConstantWind] at hop
    | setOssm p => exact ih hrest _ rfl ⟨p, rfl⟩
    | setUncertainDuration v => exact ih hrest _ hflag hdep
    | setUncertainTimeDelay v => exact ih hrest _ hflag hdep
    | setUncertainSpeedScale v => exact ih hrest _ hflag hdep
    | setUncertainAngleScale v => exact ih hrest _ hflag hdep

/-- C10: for every input particle and all time and index arguments, the
base `Mover_c::GetMove` returns a `WorldPoint3D` whose latitude, longitude
and z equal the particle's own position fields exactly, with no error
path. -/
theorem C10_base_mover_getmove_identity
    (start_time stop_time model_time timeStep setIndex leIndex : ℤ)
    (theLE : LERec) (leType : ℤ) :
    (Mover_c.GetMove start_time stop_time model_time timeStep
        setIndex leIndex theLE leType).p.pLat = theLE.p.pLat ∧
    (Mover_c.GetMove start_time stop_time model_time timeStep
        setIndex leIndex theLE leType).p.pLong = theLE.p.pLong ∧
    (Mover_c.GetMove start_time stop_time model_time timeStep
        setIndex leIndex theLE leType).z = theLE.z :=
  ⟨rfl, rfl, rfl⟩

/-- C5 counterexample: the wind-mover property setters perform no
validation, so a negative value (-5) passed to each of the four tunable
setters is stored and returned by the corresponding getter rather than
rejected. -/
theorem C5_negative_value_stored_counterexample :
    CyWindMover.uncertain_duration
        (CyWindMover.set_uncertain_duration (CyWindMover.init 10800 0 2 (2/5)) (-5)) = -5 ∧
    CyWindMover.uncertain_time_delay
        (CyWindMover.set_uncertain_time_delay (CyWindMover.init 10800 0 2 (2/5)) (-5)) = -5 ∧
    CyWindMover.uncertain_speed_scale
        (CyWindMover.set_uncertain_speed_scale (CyWindMover.init 10800 0 2 (2/5)) (-5)) = -5 ∧
    CyWindMover.uncertain_angle_scale
        (CyWindMover.set_uncertain_angle_scale (CyWindMover.init 10800 0 2 (2/5)) (-5)) = -5 ∧
    (-5 : ℚ) < 0 :=
  ⟨rfl, rfl, rfl, rfl, by norm_num⟩

/-- C5 (amended): every tunable setter stores any value, negative values
included, without validation, and the corresponding getter returns the
stored value. -/
theorem C5_setters_store_any_value (s : WindMover_c) (v : ℚ) :
    CyWindMover.uncertain_duration (CyWindMover.set_uncertain_duration s v) = v ∧
    CyWindMover.uncertain_time_delay (CyWindMover.set_uncertain_time_delay s v) = v ∧
    CyWindMover.uncertain_speed_scale (CyWindMover.set_uncertain_speed_scale s v) = v ∧
    CyWindMover.uncertain_angle_scale (CyWindMover.set_uncertain_angle_scale s v) = v :=
  ⟨rfl, rfl, rfl, rfl⟩

/-- C2 counterexample: for the height station `c2StationH`, requesting the
ebb/flood table yields the Python integer 0, which is not the empty result
collection the claim states. -/
theorem C2_mismatched_table_counterexample :
    CyShioTime.get_ebb_flood c2StationH 0 = Except.ok ShioDerived.intZero ∧
    CyShioTime.get_ebb_flood c2StationH 0 ≠
      Except.ok (ShioDerived.table ([] : List EbbFloodData)) := by
  constructor
  · rfl
  · intro hcontra
    rw [show CyShioTime.get_ebb_flood c2StationH 0 = Except.ok ShioDerived.intZero from rfl]
      at hcontra
    simp at hcontra

/-- C2 (amended): for every model time at which `get_time_value` succeeds,
requesting the derived table that does not match the station's type
returns the Python integer 0 — a non-collection sentinel — and not an
error. -/
theorem C2_mismatched_table_returns_zero (s : ShioTimeValue_c) (t : ℤ)
    (v : VelocityRec) (hok : CyShioTime.get_time_value s t = Except.ok v) :
    (s.fStationType ≠ 'C' →
      CyShioTime.get_ebb_flood s t = Except.ok ShioDerived.intZero) ∧
    (s.fStationType ≠ 'H' →
      CyShioTime.get_high_low s t = Except.ok ShioDerived.intZero) := by
  constructor
  · intro h
    simp [CyShioTime.get_ebb_flood, hok, h]
  · intro h
    simp [CyShioTime.get_high_low, hok, h]

/-- C2 witness: the amended statement evaluated at the concrete height
station, whose ebb/flood query returns the integer 0. -/
theorem C2_mismatched_table_returns_zero_witness :
    CyShioTime.get_ebb_flood c2StationH 0 = Except.ok ShioDerived.intZero :=
  (C2_mismatched_table_returns_zero c2StationH 0 { u := 0, v := 0 } rfl).1 (by decide)

/-- C6 counterexample: the `station_type` getter exposes the value 'P' for
a station whose stored type is 'P', a value outside the two-member set
current-station 'C' / height-station 'H'. -/
theorem C6_station_type_P_counterexample :
    CyShioTime.station_type c6StationP = 'P' ∧
    ('P' : Char) ≠ 'C' ∧ ('P' : Char) ≠ 'H' :=
  ⟨rfl, by decide, by decide⟩

/-- C6 (amended): the `station_type` getter exposes the stored station
type unchanged, and for the three station type codes documented in the
source ('C', 'H', 'P') the exposed value stays in that documented
three-member set. -/
theorem C6_station_type_documented_set (s : ShioTimeValue_c)
    (h : s.fStationType = 'C' ∨ s.fStationType = 'H' ∨ s.fStationType = 'P') :
    CyShioTime.station_type s = s.fStationType ∧
    (CyShioTime.station_type s = 'C' ∨ CyShioTime.station_type s = 'H' ∨
      CyShioTime.station_type s = 'P') :=
  ⟨rfl, h⟩

/-- C6 witness: the amended statement evaluated at the concrete 'P'
station. -/
theorem C6_station_type_documented_set_witness :
    CyShioTime.station_type c6StationP = c6StationP.fStationType ∧
    (CyShioTime.station_type c6StationP = 'C' ∨
      CyShioTime.station_type c6StationP = 'H' ∨
      CyShioTime.station_type c6StationP = 'P') :=
  C6_station_type_documented_set c6StationP (Or.inr (Or.inr rfl))

/-- C1: a wind mover configured by `set_constant_wind` with (u, v) = (1, 0)
meters per second and uncertainty disabled produces, for every particle
set index, every model time, and every pending uncertainty offset source,
the displacement (3600, 0) over a 3600 second step. -/
theorem C1_constant_wind_displacement (d td ss as : ℚ)
    (offsetOf : ℕ → VelocityRec) (modelTime : ℤ) (setIndex : ℕ) :
    WindMover_c.GetMove
        (CyWindMover.set_constant_wind (CyWindMover.init d td ss as) 1 0)
        false 0 offsetOf modelTime 3600 setIndex =
      Except.ok { u := 3600, v := 0 } := by
  simp [WindMover_c.GetMove, WindMover_c.getTimeValue,
    CyWindMover.set_constant_wind, CyWindMover.init]

/-- C9: with uncertainty disabled for the step, `GetMove` does not consult
the random offset source, so two calls with identical inputs return the
same displacement whatever offsets the uncertainty model would have
drawn. -/
theorem C9_getmove_deterministic_without_uncertainty (s : WindMover_c)
    (numSets : ℕ) (off1 off2 : ℕ → VelocityRec) (modelTime stepLen : ℤ)
    (setIndex : ℕ) :
    WindMover_c.GetMove s false numSets off1 modelTime stepLen setIndex =
      WindMover_c.GetMove s false numSets off2 modelTime stepLen setIndex := by
  cases h : s.getTimeValue modelTime <;> simp [WindMover_c.GetMove, h]

/-- C4: every per-particle `GetMove` — the wind mover's and the CATS
mover's — fails with `InvalidArguments` rather than skipping the particle
whenever the particle's set index is not below the `numSets` configured
for an uncertain step, or the required backing data is absent: for the
wind mover the time series (no constant wind and no attached provider),
for the CATS mover the grid, or the time series its time-series scale
policy needs. -/
theorem C4_getmove_invalid_arguments (uncertain : Bool) (numSets : ℕ)
    (offsetOf : ℕ → VelocityRec) (modelTime stepLen : ℤ) (setIndex : ℕ)
    (s : WindMover_c) (m : CATSMover_c) (pos : WorldPoint3D) :
    ((uncertain = true ∧ numSets ≤ setIndex) ∨
        (s.fIsConstantWind = false ∧ s.timeDep = none) →
      WindMover_c.GetMove s uncertain numSets offsetOf modelTime stepLen setIndex =
        Except.error MoverErr.invalidArguments) ∧
    ((uncertain = true ∧ numSets ≤ setIndex) ∨ m.fGrid = none ∨
        (m.scaleType = ScaleTypeT.sTimeFile ∧ m.timeDep = none) →
      CATSMover_c.GetMove m uncertain numSets offsetOf modelTime stepLen
          setIndex pos =
        Except.error MoverErr.invalidArguments) := by
  constructor
  · intro h
    rcases h with ⟨hu, hns⟩ | ⟨hc, ht⟩
    · simp [WindMover_c.GetMove, hu, hns]
    · by_cases hcase : uncertain = true ∧ numSets ≤ setIndex
      · simp [WindMover_c.GetMove, hcase]
      · simp [WindMover_c.GetMove, hcase, WindMover_c.getTimeValue, hc, ht]
  · intro h
    rcases h with ⟨hu, hns⟩ | hg | ⟨hst, ht⟩
    · simp [CATSMover_c.GetMove, hu, hns]
    · by_cases hcase : uncertain = true ∧ numSets ≤ setIndex
      · simp [CATSMover_c.GetMove, hcase]
      · simp [CATSMover_c.GetMove, hcase, hg]
    · by_cases hcase : uncertain = true ∧ numSets ≤ setIndex
      · simp [CATSMover_c.GetMove, hcase]
      · have hscale : m.computeVelocityScale modelTime =
            Except.error MoverErr.invalidArguments := by
          cases hg2 : m.fGrid with
          | none => simp [CATSMover_c.computeVelocityScale, hst, hg2]
          | some g => simp [CATSMover_c.computeVelocityScale, hst, hg2, ht]
        cases hg2 : m.fGrid with
        | none => simp [CATSMover_c.GetMove, hcase, hg2]
        | some g => simp [CATSMover_c.GetMove, hcase, hg2, hscale]

/-- C4 witness: the wind mover with its time series absent, the CATS mover
with its grid absent, and an uncertain step configured with zero sets
rejecting set index 0, all fail with `InvalidArguments`. -/
theorem C4_getmove_invalid_arguments_witness :
    WindMover_c.GetMove c4WindNoSeries false 0 (fun _ => { u := 0, v := 0 })
        0 3600 0 = Except.error MoverErr.invalidArguments ∧
    CATSMover_c.GetMove c4CatsNoGrid false 0 (fun _ => { u := 0, v := 0 })
        0 3600 0 { p := { pLong := 0, pLat := 0 }, z := 0 } =
      Except.error MoverErr.invalidArguments ∧
    WindMover_c.GetMove (CyWindMover.init 10800 0 2 (2/5)) true 0
        (fun _ => { u := 0, v := 0 }) 0 3600 0 =
      Except.error MoverErr.invalidArguments :=
  ⟨(C4_getmove_invalid_arguments false 0 (fun _ => { u := 0, v := 0 }) 0 3600 0
      c4WindNoSeries c4CatsNoGrid { p := { pLong := 0, pLat := 0 }, z := 0 }).1
      (Or.inr ⟨rfl, rfl⟩),
   (C4_getmove_invalid_arguments false 0 (fun _ => { u := 0, v := 0 }) 0 3600 0
      c4WindNoSeries c4CatsNoGrid { p := { pLong := 0, pLat := 0 }, z := 0 }).2
      (Or.inr (Or.inl rfl)),
   (C4_getmove_invalid_arguments true 0 (fun _ => { u := 0, v := 0 }) 0 3600 0
      (CyWindMover.init 10800 0 2 (2/5)) c4CatsNoGrid
      { p := { pLong := 0, pLat := 0 }, z := 0 }).1
      (Or.inl ⟨rfl, Nat.le_refl 0⟩)⟩

/-- C7: after `set_ossm` attaches a provider, and as long as no
`set_constant_wind` call occurs among further wrapper mutations, constant
mode stays off and the deterministic wind component is the sample of the
attached provider at the model time, never the stored constant pair. -/
theorem C7_provider_overrides_constant_mode (s : WindMover_c)
    (p : ℤ → VelocityRec) (ops : List WindOp)
    (h : ∀ op ∈ ops, op.isSetConstantWind = false) (modelTime : ℤ) :
    (applyWindOps (CyWindMover.set_ossm s p) ops).fIsConstantWind = false ∧
    ∃ q, (applyWindOps (CyWindMover.set_ossm s p) ops).timeDep = some q ∧
      WindMover_c.getTimeValue (applyWindOps (CyWindMover.set_ossm s p) ops)
          modelTime = Except.ok (q modelTime) := by
  obtain ⟨hflag, q, hdep⟩ :=
    applyWindOps_preserves_provider_mode ops h (CyWindMover.set_ossm s p) rfl ⟨p, rfl⟩
  exact ⟨hflag, q, hdep, by simp [WindMover_c.getTimeValue, hflag, hdep]⟩

/-- C7 witness: attaching a constant-value provider and then mutating an
unrelated tunable still samples the provider, returning its value (2, 3)
rather than the stored constant (0, 0). -/
theorem C7_provider_overrides_constant_mode_witness :
    (applyWindOps
        (CyWindMover.set_ossm (CyWindMover.init 10800 0 2 (2/5))
          (fun _ => { u := 2, v := 3 }))
        [WindOp.setUncertainDuration 7]).fIsConstantWind = false ∧
    ∃ q, (applyWindOps
        (CyWindMover.set_ossm (CyWindMover.init 10800 0 2 (2/5))
          (fun _ => { u := 2, v := 3 }))
        [WindOp.setUncertainDuration 7]).timeDep = some q ∧
      WindMover_c.getTimeValue
        (applyWindOps
          (CyWindMover.set_ossm (CyWindMover.init 10800 0 2 (2/5))
            (fun _ => { u := 2, v := 3 }))
          [WindOp.setUncertainDuration 7]) 0 = Except.ok (q 0) := by
  refine C7_provider_overrides_constant_mode _ _ _ ?_ 0
  intro op hop
  rw [List.mem_singleton] at hop
  rw [hop]
  rfl

/-- A concrete single-cell grid over the unit square with uniform vector
(0, 2) of magnitude 2, used to evaluate the CATS scale computation. -/
def c3Grid : TGridVel :=
  { bounds := { loLong := 0, hiLong := 1, loLat := 0, hiLat := 1 }
    velAt := fun _ => { u := 0, v := 2 }
    speedAt := fun _ => 2 }

/-- A concrete CATS mover with a time-series scale policy whose reference
point (5, 5) lies outside the bounds of `c3Grid`. -/
def c3Mover : CATSMover_c :=
  { refP := { pLong := 5, pLat := 5 }
    fGrid := some c3Grid
    refZ := 0
    scaleType := ScaleTypeT.sTimeFile
    scaleValue := 0
    refScale := 1
    bApplyLogProfile := false
    timeDep := some (fun _ => 4)
    fEddyDiffusion := 0
    fEddyV0 := 0 }

/-- C3: with a time-series scale configured and the reference point
outside the grid bounds, `ComputeVelocityScale` fails with
`ReferencePointUnresolvable` and yields no scale value at all, so the step
cannot proceed with a stale or zero scale. -/
theorem C3_scale_fails_out_of_bounds (m : CATSMover_c) (g : TGridVel)
    (f : ℤ → ℚ) (modelTime : ℤ)
    (hst : m.scaleType = ScaleTypeT.sTimeFile) (hg : m.fGrid = some g)
    (hf : m.timeDep = some f) (hout : g.bounds.containsB m.refP = false) :
    m.computeVelocityScale modelTime =
        Except.error MoverErr.referencePointUnresolvable ∧
    ∀ q : ℚ, m.computeVelocityScale modelTime ≠ Except.ok q := by
  have h1 : m.computeVelocityScale modelTime =
      Except.error MoverErr.referencePointUnresolvable := by
    simp [CATSMover_c.computeVelocityScale, hst, hg, hf, hout]
  refine ⟨h1, fun q hq => ?_⟩
  rw [h1] at hq
  exact Except.noConfusion hq

/-- C3 witness: the concrete mover `c3Mover` with reference point (5, 5)
outside the unit-square grid fails with `ReferencePointUnresolvable`. -/
theorem C3_scale_fails_out_of_bounds_witness :
    c3Mover.computeVelocityScale 0 =
      Except.error MoverErr.referencePointUnresolvable :=
  (C3_scale_fails_out_of_bounds c3Mover c3Grid (fun _ => 4) 0
    rfl rfl rfl (by decide)).1

/-- C8: `CyShioTime.__init__` fails exactly when the station file is
missing (IOError) or `ReadTimeValues` cannot read it (ValueError) — both
data-unavailable conditions — and otherwise succeeds, storing the
configuration with user units set to -1. -/
theorem C8_shio_init_fails_iff_data_unavailable (env : ShioInitEnv)
    (d : Bool) (sf : ℚ) :
    ((∃ e, CyShioTime.initFromPath env d sf = Except.error e) ↔
      (env.pathExists = false ∨ env.readTimeValuesErr ≠ 0)) ∧
    (env.pathExists = true ∧ env.readTimeValuesErr = 0 →
      CyShioTime.initFromPath env d sf =
        Except.ok { daylight_savings_off := d, userUnits := -1,
                    fScaleFactor := sf }) := by
  constructor
  · constructor
    · rintro ⟨e, he⟩
      by_cases hp : env.pathExists
      · by_cases hr : env.readTimeValuesErr = 0
        · simp [CyShioTime.initFromPath, hp, hr] at he
        · exact Or.inr hr
      · exact Or.inl (by simpa using hp)
    · rintro (hp | hr)
      · exact ⟨ShioInitErr.ioError, by simp [CyShioTime.initFromPath, hp]⟩
      · by_cases hp : env.pathExists
        · exact ⟨ShioInitErr.valueError, by simp [CyShioTime.initFromPath, hp, hr]⟩
        · exact ⟨ShioInitErr.ioError, by simp [CyShioTime.initFromPath, hp]⟩
  · rintro ⟨hp, hr⟩
    simp [CyShioTime.initFromPath, hp, hr]

/-- C8 witness: with an existing readable file the construction succeeds
and stores the configuration. -/
theorem C8_shio_init_witness :
    CyShioTime.initFromPath { pathExists := true, readTimeValuesErr := 0 }
        true 1 =
      Except.ok { daylight_savings_off := true, userUnits := -1,
                  fScaleFactor := 1 } :=
  (C8_shio_init_fails_iff_data_unavailable
    { pathExists := true, readTimeValuesErr := 0 } true 1).2 ⟨rfl, rfl⟩
